import Mathlib

/-!
Verification development for the ethiopia-fi-forecast data pipeline.

The embedding follows src/src/data_processor.py (class DataProcessor and main)
and src/dashboards/dashboard_utils.py (calculate_growth_metrics).  Tabular data
(pandas DataFrames) is modelled as a column list plus rows of association
lists; a pandas null (NaN) is the cell value `none`.  Fallible operations
(pandas KeyError, Python file and arithmetic errors) return Except; an
Except.error models an uncaught Python exception.
-/

deriving instance DecidableEq for Except

namespace EthiopiaFI

/-- A cell of a table: `none` models a pandas null (NaN). -/
abbrev Cell := Option String

/-- A row: association list from column name to cell. -/
abbrev Row := List (String × Cell)

/-- An in-memory table (pandas DataFrame): column names plus rows. -/
structure Table where
  cols : List String
  rows : List Row
deriving DecidableEq

/-- Reading a cell of a row; a column absent from the row reads as null,
matching pandas filling absent fields with NaN. -/
def getCell (r : Row) (c : String) : Cell :=
  match r.lookup c with
  | some v => v
  | none => none

/-- The values of one column, in row order (a pandas Series). -/
def colValues (t : Table) (c : String) : List Cell :=
  t.rows.map (fun r => getCell r c)

/-- First-occurrence deduplication, worker: `seen` holds values already
emitted.  Models the encounter order of pandas Series.unique(). -/
def uniqueFirstGo {α : Type} [DecidableEq α] (seen : List α) : List α → List α
  | [] => []
  | x :: xs =>
    if x ∈ seen then uniqueFirstGo seen xs
    else x :: uniqueFirstGo (x :: seen) xs

/-- First-occurrence deduplication (pandas Series.unique() keeps the first
occurrence of each distinct value, in encounter order). -/
def uniqueFirst {α : Type} [DecidableEq α] (l : List α) : List α :=
  uniqueFirstGo [] l

/-- pandas Series.value_counts().to_dict(): occurrence counts of the distinct
non-null values (value_counts drops nulls).  pandas orders the keys by
frequency; the key order is immaterial to every stated property, so the keys
are listed in first-encounter order here. -/
def valueCounts (cells : List Cell) : List (String × Nat) :=
  let vals := cells.filterMap id
  (uniqueFirst vals).map (fun v => (v, vals.count v))

/-- Value of a decimal digit character, none for a non-digit. -/
def digitVal (c : Char) : Option Nat :=
  if '0' ≤ c ∧ c ≤ '9' then some (c.toNat - '0'.toNat) else none

/-- Accumulate a decimal number from characters; none on any non-digit. -/
def digitsAux : List Char → Nat → Option Nat
  | [], acc => some acc
  | c :: cs, acc =>
    match digitVal c with
    | some d => digitsAux cs (acc * 10 + d)
    | none => none

/-- Decimal value of a nonempty all-digit character list. -/
def digitsToNat (cs : List Char) : Option Nat :=
  match cs with
  | [] => none
  | _ => digitsAux cs 0

/-- Split a character list at every dash. -/
def splitDash : List Char → List Char → List (List Char)
  | [], acc => [acc.reverse]
  | c :: cs, acc =>
    if c = '-' then acc.reverse :: splitDash cs []
    else splitDash cs (c :: acc)

/-- Lenient date parser standing in for pd.to_datetime(..., errors="coerce")
restricted to ISO yyyy-mm-dd inputs: any unparseable value becomes `none`
(NaT), never an error.  A valid date is encoded as y*10000 + m*100 + d, a
strictly monotone encoding of calendar order, so minima and maxima of
encodings are minima and maxima of dates. -/
def parseDate (s : String) : Option Nat :=
  match splitDash s.toList [] with
  | [y, m, d] =>
    match digitsToNat y, digitsToNat m, digitsToNat d with
    | some yn, some mn, some dn =>
      if 1 ≤ mn ∧ mn ≤ 12 ∧ 1 ≤ dn ∧ dn ≤ 31 then
        some (yn * 10000 + mn * 100 + dn)
      else none
    | _, _, _ => none
  | _ => none

/-- The min/max pair of observation dates; a component is `none` when no row
has a valid date (pandas min/max of an all-NaT column, rendered as None). -/
structure DateRange where
  min : Option Nat
  max : Option Nat
deriving DecidableEq

/-- Result of DataProcessor.analyze_dataset.  `obs_date_range = none` models
the key being absent from the analysis dict (the observation_date column was
missing). -/
structure Analysis where
  record_counts : List (String × Nat)
  obs_date_range : Option DateRange
  unique_indicators_count : Nat
  sample_indicators : List String
  missing_values : List (String × Nat)
deriving DecidableEq

/-- The observation subset: df[df[record_type] == "observation"] (line 47). -/
def obsRows (t : Table) : List Row :=
  t.rows.filter (fun r => getCell r "record_type" = some "observation")

/-- df.isnull().sum() for one column: rows whose cell is null. -/
def missingCount (t : Table) (c : String) : Nat :=
  (t.rows.filter (fun r => getCell r c = none)).length

/-- DataProcessor.analyze_dataset (data_processor.py lines 39-64).  The two
Except.error points are exactly where pandas raises KeyError: column access
df["record_type"] (line 44) and obs["indicator_code"] (line 56); the
observation_date access is guarded by the column test on line 48. -/
def analyze (t : Table) : Except String Analysis :=
  if "record_type" ∉ t.cols then .error "KeyError: record_type"
  else
    let record_counts := valueCounts (colValues t "record_type")
    let obs := obsRows t
    let obs_date_range : Option DateRange :=
      if "observation_date" ∈ t.cols then
        let dates := obs.filterMap (fun r => (getCell r "observation_date").bind parseDate)
        some { min := dates.min?, max := dates.max? }
      else none
    if "indicator_code" ∉ t.cols then .error "KeyError: indicator_code"
    else
      let uniq := uniqueFirst (obs.filterMap (fun r => getCell r "indicator_code"))
      .ok
        { record_counts := record_counts
          obs_date_range := obs_date_range
          unique_indicators_count := uniq.length
          sample_indicators := uniq.take 5
          missing_values :=
            (t.cols.map (fun c => (c, missingCount t c))).filter (fun p => 0 < p.2) }

/-- The new_records argument of generate_report: a mapping with optional keys
"observations", "events", "impact_links", each holding a list of records
(records themselves are opaque strings here). -/
abbrev NewRecords := List (String × List String)

/-- dict.get(key, []) on a NewRecords mapping. -/
def getRecords (m : NewRecords) (k : String) : List String :=
  match m.lookup k with
  | some v => v
  | none => []

/-- The report dict built by DataProcessor.generate_report (lines 95-105). -/
structure Report where
  generated_date : String
  dataset_analysis : Analysis
  new_observations : Nat
  new_events : Nat
  new_impact_links : Nat
  data_quality_issues : List String
  recommendations : List String
deriving DecidableEq

/-- The pure dict-building part of generate_report (lines 95-105).
datetime.now().isoformat() is an ambient input and is passed in as `now`. -/
def buildReport (now : String) (analysis : Analysis) (new_records : NewRecords) : Report :=
  { generated_date := now
    dataset_analysis := analysis
    new_observations := (getRecords new_records "observations").length
    new_events := (getRecords new_records "events").length
    new_impact_links := (getRecords new_records "impact_links").length
    data_quality_issues := []
    recommendations := [] }

/-- A filesystem path as a list of components. -/
abbrev Path := List String

/-- Path rendered with slash separators, for error messages. -/
def pathStr : Path → String
  | [] => ""
  | [x] => x
  | x :: xs => x ++ "/" ++ pathStr xs

/-- The ambient filesystem: readable CSV inputs (already parsed to tables),
existing directories, written text files, and paths where opening for write
raises (unwritable destinations). -/
structure FS where
  tables : List (Path × Table)
  dirs : List Path
  files : List (Path × String)
  denied : List Path
deriving DecidableEq

/-- Path.mkdir(parents=True, exist_ok=True): the directory and all its
ancestors come to exist; nothing else changes. -/
def mkdirParents (fs : FS) (p : Path) : FS :=
  { fs with dirs := (List.range (p.length + 1)).map (fun i => p.take i) ++ fs.dirs }

/-- open(p, "w") followed by a full write: raises PermissionError on an
unwritable destination, FileNotFoundError when the parent directory does not
exist, and otherwise replaces the file content. -/
def writeFile (fs : FS) (p : Path) (content : String) : Except String FS :=
  if p ∈ fs.denied then .error ("PermissionError: " ++ pathStr p)
  else if p.dropLast ∉ fs.dirs then .error ("FileNotFoundError: " ++ pathStr p)
  else .ok { fs with files := (p, content) :: fs.files.filter (fun q => q.1 ≠ p) }

/-- pd.read_csv: produce the table stored at the path, or raise
FileNotFoundError naming the path. -/
def read_csv (fs : FS) (p : Path) : Except String Table :=
  match fs.tables.lookup p with
  | some t => .ok t
  | none => .error ("FileNotFoundError: " ++ pathStr p)

/-- The DataProcessor object state: the configured base data directory. -/
structure DataProcessor where
  data_dir : Path
deriving DecidableEq

/-- self.raw_dir = self.data_dir / "raw" (line 17). -/
def DataProcessor.raw_dir (dp : DataProcessor) : Path := dp.data_dir ++ ["raw"]

/-- self.processed_dir = self.data_dir / "processed" (line 18). -/
def DataProcessor.processed_dir (dp : DataProcessor) : Path := dp.data_dir ++ ["processed"]

/-- DataProcessor.__init__ (lines 15-21): record the base directory and create
the processed directory with parents=True, exist_ok=True. -/
def initProcessor (fs : FS) (data_dir : Path) : DataProcessor × FS :=
  let dp : DataProcessor := { data_dir := data_dir }
  (dp, mkdirParents fs dp.processed_dir)

/-- Result of DataProcessor.load_data: the returned flag, the tables assigned
to self, and the lines printed. -/
structure LoadResult where
  success : Bool
  df : Option Table
  ref_codes : Option Table
  printed : List String
deriving DecidableEq

/-- DataProcessor.load_data (lines 23-37): read the two raw CSVs; a
FileNotFoundError is caught, printed together with its path, and turns into a
False return value.  No other recovery happens. -/
def load_data (fs : FS) (dp : DataProcessor) : LoadResult :=
  let p1 := dp.raw_dir ++ ["ethiopia_fi_unified_data.csv"]
  let p2 := dp.raw_dir ++ ["reference_codes.csv"]
  match read_csv fs p1 with
  | .error e => ⟨false, none, none, ["Loading datasets...", "Error loading data: " ++ e]⟩
  | .ok df =>
    match read_csv fs p2 with
    | .error e => ⟨false, some df, none, ["Loading datasets...", "Error loading data: " ++ e]⟩
    | .ok rc =>
      ⟨true, some df, some rc, ["Loading datasets...", "Main dataset loaded", "Reference codes loaded"]⟩

/-- Quoted JSON string (the report content needs no escape sequences). -/
def jstr (s : String) : String := "\"" ++ s ++ "\""

/-- Encoded date rendered for the report; stands in for strftime of the
decoded date. -/
def dateStr (n : Nat) : String := toString n

/-- json.dump(..., indent=2) rendering of a string-to-count mapping. -/
def renderCountMap (ind : String) (m : List (String × Nat)) : String :=
  match m with
  | [] => "\x7b\x7d"
  | _ =>
    "\x7b\n" ++
      String.intercalate ",\n"
        (m.map (fun kv => ind ++ "  " ++ jstr kv.1 ++ ": " ++ toString kv.2)) ++
      "\n" ++ ind ++ "\x7d"

/-- json.dump(..., indent=2) rendering of a list of strings. -/
def renderStrList (ind : String) (l : List String) : String :=
  match l with
  | [] => "[]"
  | _ =>
    "[\n" ++ String.intercalate ",\n" (l.map (fun s => ind ++ "  " ++ jstr s)) ++
      "\n" ++ ind ++ "]"

/-- Rendering of an optional date (min or max of the range). -/
def renderOptDate (d : Option Nat) : String :=
  match d with
  | some n => jstr (dateStr n)
  | none => "null"

/-- json.dump(..., indent=2) rendering of the dataset_analysis sub-dict. -/
def renderAnalysis (a : Analysis) : String :=
  "\x7b\n" ++
    "    " ++ jstr "record_counts" ++ ": " ++ renderCountMap "    " a.record_counts ++ ",\n" ++
    (match a.obs_date_range with
     | none => ""
     | some dr =>
       "    " ++ jstr "obs_date_range" ++ ": \x7b\n" ++
         "      " ++ jstr "min" ++ ": " ++ renderOptDate dr.min ++ ",\n" ++
         "      " ++ jstr "max" ++ ": " ++ renderOptDate dr.max ++ "\n" ++
         "    \x7d,\n") ++
    "    " ++ jstr "unique_indicators_count" ++ ": " ++ toString a.unique_indicators_count ++ ",\n" ++
    "    " ++ jstr "sample_indicators" ++ ": " ++ renderStrList "    " a.sample_indicators ++ ",\n" ++
    "    " ++ jstr "missing_values" ++ ": " ++ renderCountMap "    " a.missing_values ++ "\n" ++
  "  \x7d"

/-- json.dump(report, f, indent=2) (line 110): the fixed two-space-indented
textual JSON serialization of the report dict. -/
def renderReport (r : Report) : String :=
  "\x7b\n" ++
    "  " ++ jstr "generated_date" ++ ": " ++ jstr r.generated_date ++ ",\n" ++
    "  " ++ jstr "dataset_analysis" ++ ": " ++ renderAnalysis r.dataset_analysis ++ ",\n" ++
    "  " ++ jstr "enrichment_summary" ++ ": \x7b\n" ++
      "    " ++ jstr "new_observations" ++ ": " ++ toString r.new_observations ++ ",\n" ++
      "    " ++ jstr "new_events" ++ ": " ++ toString r.new_events ++ ",\n" ++
      "    " ++ jstr "new_impact_links" ++ ": " ++ toString r.new_impact_links ++ "\n" ++
    "  \x7d,\n" ++
    "  " ++ jstr "data_quality_issues" ++ ": " ++ renderStrList "  " r.data_quality_issues ++ ",\n" ++
    "  " ++ jstr "recommendations" ++ ": " ++ renderStrList "  " r.recommendations ++ "\n" ++
  "\x7d"

/-- The persisting part of generate_report (lines 107-112): serialize the
report with the fixed two-space indent and write it to
processed_dir/task1_report.json.  An unwritable destination raises (open
propagates, nothing is caught). -/
def persist (fs : FS) (dp : DataProcessor) (report : Report) : Except String (FS × Path) :=
  match writeFile fs (dp.processed_dir ++ ["task1_report.json"]) (renderReport report) with
  | .error e => .error e
  | .ok fs2 => .ok (fs2, dp.processed_dir ++ ["task1_report.json"])

/-- DataProcessor.generate_report (lines 93-112): build the report dict, then
persist it, returning the report path. -/
def generate_report (fs : FS) (dp : DataProcessor) (now : String)
    (analysis : Analysis) (new_records : NewRecords) : Except String (FS × Path) :=
  persist fs dp (buildReport now analysis new_records)

/-- DataFrame.to_csv(index=False), simplified: header line, then one
comma-joined line per row with nulls as empty fields. -/
def to_csv (t : Table) : String :=
  String.intercalate "\n"
    (String.intercalate "," t.cols ::
      t.rows.map (fun r => String.intercalate "," (t.cols.map (fun c => (getCell r c).getD ""))))

/-- DataProcessor.save_enriched_data (lines 86-91). -/
def save_enriched_data (fs : FS) (dp : DataProcessor) (df : Table) : Except String (FS × Path) :=
  match writeFile fs (dp.processed_dir ++ ["ethiopia_fi_enriched.csv"]) (to_csv df) with
  | .error e => .error e
  | .ok fs2 => .ok (fs2, dp.processed_dir ++ ["ethiopia_fi_enriched.csv"])

/-- main (lines 115-150).  Except.error models an uncaught Python exception,
after which the interpreter exits with a nonzero status; Except.ok models a
normal return from main, after which the process exits with status 0.  The
early return when load_data fails (lines 125-126) is a normal return.  The
result carries the final filesystem and the printed lines that matter to the
claims. -/
def main (fs : FS) (now : String) : Except String (FS × List String) :=
  match initProcessor fs ["..", "data"] with
  | (dp, fs1) =>
    let lr := load_data fs1 dp
    if lr.success = false then .ok (fs1, lr.printed)
    else
      let df := match lr.df with | some d => d | none => Table.mk [] []
      match analyze df with
      | .error e => .error e
      | .ok analysis =>
        match save_enriched_data fs1 dp df with
        | .error e => .error e
        | .ok (fs2, _) =>
          match generate_report fs2 dp now analysis [] with
          | .error e => .error e
          | .ok (fs3, rp) => .ok (fs3, lr.printed ++ ["Report generated: " ++ pathStr rp])

/-- Metrics dict returned by calculate_growth_metrics
(dashboards/dashboard_utils.py lines 96-110).  Python floats are modelled as
rationals; the claims depend only on signs, zero tests and the guard
structure, not on rounding. -/
structure GrowthMetrics where
  total_growth_pp : ℚ
  annual_growth_pp : ℚ
  cagr_percent : ℚ
  doubling_time : Option ℚ
deriving DecidableEq

/-- calculate_growth_metrics (dashboard_utils.py lines 96-110).  The float
power operator ** is passed in abstractly as powFn (an Except, since Python
float power can itself fail or yield a complex value that poisons the later
comparison).  The two Except.error points are Python ZeroDivisionErrors:
total_growth / len(years) on line 102 and forecast_values[-1] / current_value
on line 103.  Returning .ok none models the early `return \x7b\x7d` on
line 99. -/
def calculate_growth_metrics (powFn : ℚ → ℚ → Except String ℚ)
    (current_value : ℚ) (forecast_values : List ℚ) (years : List ℚ) :
    Except String (Option GrowthMetrics) :=
  if forecast_values.length < 2 then .ok none
  else
    let last := forecast_values.getLastD 0
    let total_growth := last - current_value
    if years.length = 0 then .error "ZeroDivisionError: division by zero"
    else
      let annual_growth := total_growth / (years.length : ℚ)
      if current_value = 0 then .error "ZeroDivisionError: float division by zero"
      else
        match powFn (last / current_value) (1 / (years.length : ℚ)) with
        | .error e => .error e
        | .ok p =>
          let cagr := (p - 1) * 100
          .ok (some
            { total_growth_pp := total_growth
              annual_growth_pp := annual_growth
              cagr_percent := cagr
              doubling_time := if 0 < cagr then some (72 / cagr) else none })

/-! Helper lemmas about the embedding. -/

/-- The non-null date encodings of the observation rows, in row order. -/
def obsDates (t : Table) : List Nat :=
  (obsRows t).filterMap (fun r => (getCell r "observation_date").bind parseDate)

/-- The non-null indicator codes of the observation rows, in row order. -/
def obsCodes (t : Table) : List String :=
  (obsRows t).filterMap (fun r => getCell r "indicator_code")

/-- Example table: repeated and null indicator codes on observation rows,
plus a code on an event row that must not be counted. -/
def exampleTable6 : Table :=
  { cols := ["record_type", "indicator_code"]
    rows := [[("record_type", some "observation"), ("indicator_code", some "ACC")],
             [("record_type", some "observation"), ("indicator_code", some "ACC")],
             [("record_type", some "observation"), ("indicator_code", none)],
             [("record_type", some "event"), ("indicator_code", some "EVT")]] }

/-- The analysis that analyze produces on exampleTable6. -/
def exampleAnalysis6 : Analysis :=
  { record_counts := [("observation", 3), ("event", 1)]
    obs_date_range := none
    unique_indicators_count := 1
    sample_indicators := ["ACC"]
    missing_values := [("indicator_code", 1)] }

/-- An empty example report. -/
def exampleReport7 : Report :=
  { generated_date := "t"
    dataset_analysis :=
      { record_counts := []
        obs_date_range := none
        unique_indicators_count := 0
        sample_indicators := []
        missing_values := [] }
    new_observations := 0
    new_events := 0
    new_impact_links := 0
    data_quality_issues := []
    recommendations := [] }

/-- The filesystem produced by initProcessor from an empty one with base
directory d. -/
def exampleFS7 : FS :=
  { tables := [], dirs := [[], ["d"], ["d", "processed"]], files := [], denied := [] }

theorem mem_uniqueFirstGo {α : Type} [DecidableEq α] (l : List α) :
    ∀ (seen : List α) (v : α), v ∈ uniqueFirstGo seen l ↔ v ∈ l ∧ v ∉ seen := by
  induction l with
  | nil => intro seen v; simp [uniqueFirstGo]
  | cons x xs ih =>
    intro seen v
    by_cases hx : x ∈ seen
    · simp only [uniqueFirstGo, if_pos hx, ih, List.mem_cons]
      constructor
      · rintro ⟨h1, h2⟩; exact ⟨Or.inr h1, h2⟩
      · rintro ⟨h1 | h1, h2⟩
        · exact absurd (h1 ▸ hx) h2
        · exact ⟨h1, h2⟩
    · simp only [uniqueFirstGo, if_neg hx, List.mem_cons, ih]
      constructor
      · rintro (rfl | ⟨h1, h2⟩)
        · exact ⟨Or.inl rfl, hx⟩
        · exact ⟨Or.inr h1, fun hs => h2 (Or.inr hs)⟩
      · rintro ⟨rfl | h1, h2⟩
        · exact Or.inl rfl
        · by_cases hvx : v = x
          · exact Or.inl hvx
          · exact Or.inr ⟨h1, fun hor => hor.elim hvx h2⟩

theorem mem_uniqueFirst {α : Type} [DecidableEq α] (l : List α) (v : α) :
    v ∈ uniqueFirst l ↔ v ∈ l := by
  simp [uniqueFirst, mem_uniqueFirstGo]

theorem nodup_uniqueFirstGo {α : Type} [DecidableEq α] (l : List α) :
    ∀ seen : List α, (uniqueFirstGo seen l).Nodup := by
  induction l with
  | nil => intro seen; simp [uniqueFirstGo]
  | cons x xs ih =>
    intro seen
    by_cases hx : x ∈ seen
    · simpa [uniqueFirstGo, if_pos hx] using ih seen
    · simp only [uniqueFirstGo, if_neg hx]
      refine List.Nodup.cons ?_ (ih (x :: seen))
      intro hmem
      exact ((mem_uniqueFirstGo xs (x :: seen) x).1 hmem).2 (List.mem_cons_self x seen)

theorem nodup_uniqueFirst {α : Type} [DecidableEq α] (l : List α) :
    (uniqueFirst l).Nodup :=
  nodup_uniqueFirstGo l []

theorem uniqueFirst_perm_dedup {α : Type} [DecidableEq α] (l : List α) :
    (uniqueFirst l).Perm l.dedup :=
  (List.perm_ext_iff_of_nodup (nodup_uniqueFirst l) l.nodup_dedup).2
    (fun v => by simp [mem_uniqueFirst, List.mem_dedup])

/-- The counts of the distinct values of a list add up to its length. -/
theorem sum_map_count_uniqueFirst {α : Type} [DecidableEq α] (l : List α) :
    ((uniqueFirst l).map (fun v => l.count v)).sum = l.length := by
  have h := ((uniqueFirst_perm_dedup l).map (fun v => l.count v)).sum_eq
  rw [h]
  exact List.sum_map_count_dedup_eq_length l

/-- First-occurrence deduplication has as many elements as the set of values. -/
theorem length_uniqueFirst {α : Type} [DecidableEq α] (l : List α) :
    (uniqueFirst l).length = l.toFinset.card := by
  have h1 : (uniqueFirst l).toFinset = l.toFinset := by
    ext v; simp [List.mem_toFinset, mem_uniqueFirst]
  rw [← h1, List.toFinset_card_of_nodup (nodup_uniqueFirst l)]

theorem length_filterMap_isSome {α β : Type} (f : α → Option β) (l : List α) :
    (l.filterMap f).length = (l.filter (fun x => (f x).isSome)).length := by
  induction l with
  | nil => rfl
  | cons x xs ih => cases h : f x <;> simp [List.filterMap_cons, List.filter_cons, h, ih]

/-- Unfolding of analyze on the success path: analyze returns .ok exactly when
both unconditionally accessed columns exist, and then every field of the
analysis is determined by the table. -/
theorem analyze_ok_iff (t : Table) (a : Analysis) :
    analyze t = .ok a ↔
      "record_type" ∈ t.cols ∧ "indicator_code" ∈ t.cols ∧
      a = { record_counts := valueCounts (colValues t "record_type")
            obs_date_range :=
              if "observation_date" ∈ t.cols then
                some { min := (obsDates t).min?, max := (obsDates t).max? }
              else none
            unique_indicators_count := (uniqueFirst (obsCodes t)).length
            sample_indicators := (uniqueFirst (obsCodes t)).take 5
            missing_values :=
              (t.cols.map (fun c => (c, missingCount t c))).filter (fun p => 0 < p.2) } := by
  unfold analyze
  by_cases h1 : "record_type" ∈ t.cols <;> by_cases h2 : "indicator_code" ∈ t.cols <;>
    simp [h1, h2, obsDates, obsCodes, eq_comm]

/-! Claim theorems. -/

/-- C1, counterexample: a one-row table whose record_type is null has
record_counts summing to 0, not to the row count 1 — pandas value_counts
drops nulls, so the claimed identity sum(record_counts) == len(table) fails
on tables with a null record_type. -/
theorem C1_counterexample :
    (analyze { cols := ["record_type", "indicator_code"],
               rows := [[("record_type", none), ("indicator_code", none)]] }).map
        (fun a => (a.record_counts.map Prod.snd).sum) = .ok 0 ∧
    ({ cols := ["record_type", "indicator_code"],
       rows := [[("record_type", none), ("indicator_code", none)]] } : Table).rows.length = 1 := by
  decide

/-- C1, amended: for every table on which analyze succeeds, the counts in
record_counts sum to the number of rows whose record_type is non-null; rows
are grouped by their literal record_type value and unknown values are counted,
but null record_type rows are dropped by value_counts.  For tables with no
null record_type this is the number of rows of the table. -/
theorem C1_record_counts_sum (t : Table) (a : Analysis) (h : analyze t = .ok a) :
    (a.record_counts.map Prod.snd).sum =
      (t.rows.filter (fun r => (getCell r "record_type").isSome)).length := by
  rw [analyze_ok_iff] at h
  obtain ⟨-, -, rfl⟩ := h
  show ((valueCounts (colValues t "record_type")).map Prod.snd).sum = _
  rw [valueCounts]
  simp only [List.map_map]
  have hcomp : (Prod.snd ∘ fun v => (v, ((colValues t "record_type").filterMap id).count v)) =
      fun v => ((colValues t "record_type").filterMap id).count v := rfl
  rw [hcomp, sum_map_count_uniqueFirst]
  have := length_filterMap_isSome (fun r => getCell r "record_type") t.rows
  simpa [colValues, List.filterMap_map] using this.symm ▸ rfl

/-- C1 witness: the amended theorem applied to a concrete one-row table. -/
theorem C1_record_counts_sum_witness :
    ((({ record_counts := [("event", 1)], obs_date_range := none,
         unique_indicators_count := 0, sample_indicators := [],
         missing_values := [("indicator_code", 1)] } : Analysis).record_counts.map Prod.snd).sum =
      (({ cols := ["record_type", "indicator_code"],
          rows := [[("record_type", some "event"), ("indicator_code", none)]] } : Table).rows.filter
          (fun r => (getCell r "record_type").isSome)).length) :=
  C1_record_counts_sum
    { cols := ["record_type", "indicator_code"],
      rows := [[("record_type", some "event"), ("indicator_code", none)]] }
    { record_counts := [("event", 1)], obs_date_range := none,
      unique_indicators_count := 0, sample_indicators := [],
      missing_values := [("indicator_code", 1)] }
    (by decide)

/-- C2, counterexample: on the empty table whose only column is record_type,
analyze raises (pandas KeyError from the unguarded obs["indicator_code"]
access on line 56) instead of returning the claimed analysis — so the claim
that no other column is required fails. -/
theorem C2_counterexample :
    analyze { cols := ["record_type"], rows := [] } = .error "KeyError: indicator_code" := by
  decide

/-- C2, amended: for the empty input table with the record_type and
indicator_code columns present and no observation_date column, analyze
returns empty record_counts, no obs_date_range entry, a zero
unique_indicators_count and empty missing_values, without raising. -/
theorem C2_empty_table (t : Table) (h0 : t.rows = [])
    (hrt : "record_type" ∈ t.cols) (hic : "indicator_code" ∈ t.cols)
    (hod : "observation_date" ∉ t.cols) :
    analyze t =
      .ok { record_counts := [], obs_date_range := none, unique_indicators_count := 0,
            sample_indicators := [], missing_values := [] } := by
  rw [analyze_ok_iff]
  refine ⟨hrt, hic, ?_⟩
  have hmv : (t.cols.map (fun c => (c, missingCount t c))).filter (fun p => 0 < p.2) = [] := by
    rw [List.filter_eq_nil_iff]
    intro p hp
    obtain ⟨c, -, rfl⟩ := List.mem_map.1 hp
    simp [missingCount, h0]
  simp [valueCounts, colValues, obsCodes, obsRows, h0, hod, hmv, uniqueFirst, uniqueFirstGo]

/-- C2 witness: the amended theorem applied to the concrete empty table. -/
theorem C2_empty_table_witness :
    analyze { cols := ["record_type", "indicator_code"], rows := [] } =
      .ok { record_counts := [], obs_date_range := none, unique_indicators_count := 0,
            sample_indicators := [], missing_values := [] } :=
  C2_empty_table { cols := ["record_type", "indicator_code"], rows := [] }
    rfl (by decide) (by decide) (by decide)

theorem mkdirParents_tables (fs : FS) (p : Path) : (mkdirParents fs p).tables = fs.tables := rfl

theorem mkdirParents_files (fs : FS) (p : Path) : (mkdirParents fs p).files = fs.files := rfl

theorem mkdirParents_denied (fs : FS) (p : Path) : (mkdirParents fs p).denied = fs.denied := rfl

theorem main_fail_first (fs : FS) (now : String)
    (h1 : fs.tables.lookup ["..", "data", "raw", "ethiopia_fi_unified_data.csv"] = none) :
    main fs now =
      .ok (mkdirParents fs ["..", "data", "processed"],
        ["Loading datasets...",
         "Error loading data: FileNotFoundError: ../data/raw/ethiopia_fi_unified_data.csv"]) := by
  simp [main, initProcessor, load_data, read_csv, DataProcessor.raw_dir,
    DataProcessor.processed_dir, mkdirParents_tables, h1, pathStr]

theorem main_fail_second (fs : FS) (now : String) (df : Table)
    (h1 : fs.tables.lookup ["..", "data", "raw", "ethiopia_fi_unified_data.csv"] = some df)
    (h2 : fs.tables.lookup ["..", "data", "raw", "reference_codes.csv"] = none) :
    main fs now =
      .ok (mkdirParents fs ["..", "data", "processed"],
        ["Loading datasets...",
         "Error loading data: FileNotFoundError: ../data/raw/reference_codes.csv"]) := by
  simp [main, initProcessor, load_data, read_csv, DataProcessor.raw_dir,
    DataProcessor.processed_dir, mkdirParents_tables, h1, h2, pathStr]

/-- C3, amended: when a required input CSV is absent, the run aborts before
any analysis — load_data catches the FileNotFoundError, prints the error with
the path and underlying cause, main returns early, no file at all is written
(in particular no report) — but the top-level process then completes with a
zero (successful) status, since main only returns and nothing calls for a
nonzero exit. -/
theorem C3_missing_input (fs : FS) (now : String)
    (h : fs.tables.lookup ["..", "data", "raw", "ethiopia_fi_unified_data.csv"] = none ∨
         fs.tables.lookup ["..", "data", "raw", "reference_codes.csv"] = none) :
    ∃ msgs : List String,
      main fs now = .ok (mkdirParents fs ["..", "data", "processed"], msgs) ∧
      (mkdirParents fs ["..", "data", "processed"]).files = fs.files ∧
      ("Error loading data: FileNotFoundError: ../data/raw/ethiopia_fi_unified_data.csv" ∈ msgs ∨
       "Error loading data: FileNotFoundError: ../data/raw/reference_codes.csv" ∈ msgs) := by
  cases h1 : fs.tables.lookup ["..", "data", "raw", "ethiopia_fi_unified_data.csv"] with
  | none =>
    exact ⟨_, main_fail_first fs now h1, rfl, Or.inl (by simp)⟩
  | some df =>
    rcases h with h | h2
    · exact absurd h1 (h ▸ fun hc => Option.noConfusion hc)
    · exact ⟨_, main_fail_second fs now df h1 h2, rfl, Or.inr (by simp)⟩

/-- C3, counterexample to the original claim: on an empty filesystem the run
reports the missing input and produces no report, yet main returns normally
(Except.ok, hence exit status 0) — the claimed non-zero completion status
does not happen. -/
theorem C3_counterexample :
    (main { tables := [], dirs := [], files := [], denied := [] } "t").toOption.map
        (fun x => (x.1.files, x.2)) =
      some ([],
        ["Loading datasets...",
         "Error loading data: FileNotFoundError: ../data/raw/ethiopia_fi_unified_data.csv"]) := by
  decide

/-- C3 witness: the amended theorem applied to the empty filesystem. -/
theorem C3_missing_input_witness :
    ∃ msgs : List String,
      main { tables := [], dirs := [], files := [], denied := [] } "t" =
        .ok (mkdirParents { tables := [], dirs := [], files := [], denied := [] }
               ["..", "data", "processed"], msgs) ∧
      (mkdirParents { tables := [], dirs := [], files := [], denied := [] }
          ["..", "data", "processed"]).files =
        ({ tables := [], dirs := [], files := [], denied := [] } : FS).files ∧
      ("Error loading data: FileNotFoundError: ../data/raw/ethiopia_fi_unified_data.csv" ∈ msgs ∨
       "Error loading data: FileNotFoundError: ../data/raw/reference_codes.csv" ∈ msgs) :=
  C3_missing_input { tables := [], dirs := [], files := [], denied := [] } "t" (Or.inl rfl)

/-- C4: on every table for which analyze succeeds and in which no observation
row carries a parseable observation_date, the reported date range is absent
(no observation_date column) or null-null (no valid dates); unparseable dates
are dropped row by row and the run is not aborted. -/
theorem C4_no_valid_dates (t : Table)
    (hrt : "record_type" ∈ t.cols) (hic : "indicator_code" ∈ t.cols)
    (hd : ∀ r ∈ obsRows t, (getCell r "observation_date").bind parseDate = none) :
    ∃ a, analyze t = .ok a ∧
      (a.obs_date_range = none ∨ a.obs_date_range = some { min := none, max := none }) := by
  refine ⟨_, (analyze_ok_iff t _).mpr ⟨hrt, hic, rfl⟩, ?_⟩
  have hdates : obsDates t = [] := by
    rw [obsDates, List.filterMap_eq_nil_iff]
    exact hd
  by_cases hod : "observation_date" ∈ t.cols <;> simp [hod, hdates]

/-- C4 witness: a table whose single observation row has an unparseable date;
analyze succeeds and reports a null date range. -/
theorem C4_no_valid_dates_witness :
    ∃ a, analyze { cols := ["record_type", "indicator_code", "observation_date"],
                   rows := [[("record_type", some "observation"),
                             ("indicator_code", some "ACC"),
                             ("observation_date", some "garbage")]] } = .ok a ∧
      (a.obs_date_range = none ∨ a.obs_date_range = some { min := none, max := none }) :=
  C4_no_valid_dates
    { cols := ["record_type", "indicator_code", "observation_date"],
      rows := [[("record_type", some "observation"), ("indicator_code", some "ACC"),
                ("observation_date", some "garbage")]] }
    (by decide) (by decide) (by decide)

/-- C5: buildReport with the empty newRecordCounts mapping reports zero new
observations, events and impact_links; more generally every absent key
defaults to the empty list, whose length 0 is taken without any fault
(buildReport is total). -/
theorem C5_default_counts (now : String) (a : Analysis) (nr : NewRecords) :
    ((buildReport now a []).new_observations = 0 ∧
     (buildReport now a []).new_events = 0 ∧
     (buildReport now a []).new_impact_links = 0) ∧
    (nr.lookup "observations" = none → (buildReport now a nr).new_observations = 0) ∧
    (nr.lookup "events" = none → (buildReport now a nr).new_events = 0) ∧
    (nr.lookup "impact_links" = none → (buildReport now a nr).new_impact_links = 0) := by
  refine ⟨⟨rfl, rfl, rfl⟩, ?_, ?_, ?_⟩ <;>
    · intro h
      simp [buildReport, getRecords, h]

/-- C5 witness: the theorem applied at a mapping that has only the
observations key, so the events count defaults to zero. -/
theorem C5_default_counts_witness :
    ([("observations", ["x"])] : NewRecords).lookup "events" = none ∧
    (buildReport "t"
      { record_counts := [], obs_date_range := none, unique_indicators_count := 0,
        sample_indicators := [], missing_values := [] }
      [("observations", ["x"])]).new_events = 0 :=
  ⟨by decide,
   (C5_default_counts "t"
      { record_counts := [], obs_date_range := none, unique_indicators_count := 0,
        sample_indicators := [], missing_values := [] }
      [("observations", ["x"])]).2.2.1 (by decide)⟩

/-- C6: whenever analyze succeeds, unique_indicators_count is the cardinality
of the set of distinct non-null indicator_code values of the observation rows
only, and sample_indicators is the first 5 of those distinct values in
encounter order. -/
theorem C6_unique_indicators (t : Table) (a : Analysis) (h : analyze t = .ok a) :
    a.unique_indicators_count = (obsCodes t).toFinset.card ∧
    a.sample_indicators = (uniqueFirst (obsCodes t)).take 5 := by
  rw [analyze_ok_iff] at h
  obtain ⟨-, -, rfl⟩ := h
  exact ⟨length_uniqueFirst _, rfl⟩

/-- C6 witness: the theorem applied to exampleTable6. -/
theorem C6_unique_indicators_witness :
    exampleAnalysis6.unique_indicators_count = (obsCodes exampleTable6).toFinset.card ∧
    exampleAnalysis6.sample_indicators = (uniqueFirst (obsCodes exampleTable6)).take 5 :=
  C6_unique_indicators exampleTable6 exampleAnalysis6 (by decide)

/-- C7: after DataProcessor construction the processed directory exists (it is
created with parents as needed); persist then serializes the report with the
fixed two-space-indented JSON rendering and writes it at the configured path
derived from the caller-supplied base directory, returning that path; if the
destination is unwritable, persist surfaces the error instead of writing. -/
theorem C7_persist (fs : FS) (data_dir : Path) (r : Report)
    (dp : DataProcessor) (fs1 : FS) (hinit : initProcessor fs data_dir = (dp, fs1)) :
    dp.processed_dir ∈ fs1.dirs ∧
    (dp.processed_dir ++ ["task1_report.json"] ∉ fs1.denied →
      persist fs1 dp r =
        .ok ({ fs1 with files := (dp.processed_dir ++ ["task1_report.json"], renderReport r) ::
                 fs1.files.filter (fun q => q.1 ≠ dp.processed_dir ++ ["task1_report.json"]) },
             dp.processed_dir ++ ["task1_report.json"])) ∧
    (dp.processed_dir ++ ["task1_report.json"] ∈ fs1.denied →
      persist fs1 dp r = .error ("PermissionError: " ++
        pathStr (dp.processed_dir ++ ["task1_report.json"]))) := by
  have hdp : dp = { data_dir := data_dir } := by
    have := congrArg Prod.fst hinit
    simpa [initProcessor] using this.symm
  have hfs1 : fs1 = mkdirParents fs dp.processed_dir := by
    have := congrArg Prod.snd hinit
    simp [initProcessor] at this
    rw [← this, hdp]
  have hdir : dp.processed_dir ∈ fs1.dirs := by
    rw [hfs1, mkdirParents]
    refine List.mem_append.2 (Or.inl ?_)
    refine List.mem_map.2 ⟨dp.processed_dir.length, ?_, List.take_length _⟩
    exact List.mem_range.2 (Nat.lt_succ_self _)
  refine ⟨hdir, ?_, ?_⟩
  · intro hok
    have hdrop : (dp.processed_dir ++ ["task1_report.json"]).dropLast = dp.processed_dir := by
      simp
    rw [persist, writeFile, if_neg hok, hdrop, if_neg (by simp [hdir])]
  · intro hdenied
    rw [persist, writeFile, if_pos hdenied]

/-- C7 witness: the theorem applied to a concrete base directory, filesystem
and report. -/
theorem C7_persist_witness :
    ({ data_dir := ["d"] } : DataProcessor).processed_dir ∈ exampleFS7.dirs ∧
    ∃ out, persist exampleFS7 { data_dir := ["d"] } exampleReport7 = .ok out := by
  have h := C7_persist { tables := [], dirs := [], files := [], denied := [] } ["d"]
    exampleReport7 { data_dir := ["d"] } exampleFS7 (by decide)
  exact ⟨h.1, ⟨_, h.2.1 (by decide)⟩⟩

/-- C8: whenever analyze succeeds, every entry of missing_values has a
strictly positive count — columns with zero missing values are filtered out
of the mapping. -/
theorem C8_missing_values_positive (t : Table) (a : Analysis) (h : analyze t = .ok a) :
    ∀ p ∈ a.missing_values, 0 < p.2 := by
  rw [analyze_ok_iff] at h
  obtain ⟨-, -, rfl⟩ := h
  intro p hp
  simpa using List.of_mem_filter hp

/-- C8 witness: the theorem applied to a table with one null indicator_code,
at the single entry of the resulting missing_values mapping. -/
theorem C8_missing_values_positive_witness :
    0 < (("indicator_code", 1) : String × Nat).2 :=
  C8_missing_values_positive
    { cols := ["record_type", "indicator_code"],
      rows := [[("record_type", some "event"), ("indicator_code", none)]] }
    { record_counts := [("event", 1)], obs_date_range := none,
      unique_indicators_count := 0, sample_indicators := [],
      missing_values := [("indicator_code", 1)] }
    (by decide) ("indicator_code", 1) (by decide)

/-- C9: buildReport is deterministic in everything but the embedded
timestamp — two builds from identical analysis and newRecordCounts agree on
every other field. -/
theorem C9_deterministic (t1 t2 : String) (a : Analysis) (nr : NewRecords) :
    (buildReport t1 a nr).dataset_analysis = (buildReport t2 a nr).dataset_analysis ∧
    (buildReport t1 a nr).new_observations = (buildReport t2 a nr).new_observations ∧
    (buildReport t1 a nr).new_events = (buildReport t2 a nr).new_events ∧
    (buildReport t1 a nr).new_impact_links = (buildReport t2 a nr).new_impact_links ∧
    (buildReport t1 a nr).data_quality_issues = (buildReport t2 a nr).data_quality_issues ∧
    (buildReport t1 a nr).recommendations = (buildReport t2 a nr).recommendations :=
  ⟨rfl, rfl, rfl, rfl, rfl, rfl⟩

/-- C10, counterexample: with two forecast values but an empty years list the
call raises a ZeroDivisionError (annual_growth = total_growth / len(years) on
line 102), so it neither returns the empty mapping nor a mapping with a
doubling_time field, contradicting the claimed behavior for every call. -/
theorem C10_counterexample :
    calculate_growth_metrics (fun a _ => .ok a) 1 [1, 2] [] =
      .error "ZeroDivisionError: division by zero" := by
  decide

/-- C10, amended: with fewer than 2 forecast values the result is the empty
mapping; otherwise, provided years is nonempty, current_value is nonzero and
the float power succeeds (the calls on lines 102-103 that would raise), the
returned doubling_time is 72 / cagr exactly when cagr is strictly positive
and None when cagr is zero or negative — the guard prevents any division by a
non-positive cagr. -/
theorem C10_growth_metrics (powFn : ℚ → ℚ → Except String ℚ) (current : ℚ)
    (fv years : List ℚ) :
    (fv.length < 2 → calculate_growth_metrics powFn current fv years = .ok none) ∧
    (2 ≤ fv.length → years ≠ [] → current ≠ 0 →
      ∀ p, powFn (fv.getLastD 0 / current) (1 / (years.length : ℚ)) = .ok p →
        ∃ m, calculate_growth_metrics powFn current fv years = .ok (some m) ∧
          (0 < m.cagr_percent → m.doubling_time = some (72 / m.cagr_percent)) ∧
          (m.cagr_percent ≤ 0 → m.doubling_time = none)) := by
  constructor
  · intro h
    rw [calculate_growth_metrics, if_pos h]
  · intro h2 hy hc p hp
    rw [calculate_growth_metrics, if_neg (by omega),
      if_neg (fun h0 => hy (List.length_eq_zero.1 h0)), if_neg hc, hp]
    refine ⟨_, rfl, ?_, ?_⟩
    · intro h0
      simp only at h0 ⊢
      rw [if_pos h0]
    · intro h0
      simp only at h0 ⊢
      rw [if_neg (not_lt.2 h0)]

/-- C10 witness: the amended theorem applied with a power function returning
2, so cagr = 100 > 0 and the doubling time is 72/100. -/
theorem C10_growth_metrics_witness :
    ∃ m, calculate_growth_metrics (fun _ _ => Except.ok 2) 1 [1, 2] [1] = .ok (some m) ∧
      (0 < m.cagr_percent → m.doubling_time = some (72 / m.cagr_percent)) ∧
      (m.cagr_percent ≤ 0 → m.doubling_time = none) :=
  (C10_growth_metrics (fun _ _ => Except.ok 2) 1 [1, 2] [1]).2
    (by decide) (by decide) (by decide) 2 rfl

end EthiopiaFI
